import Mathlib

/-!
Verification of the playback queue / playback-mode state machine of the
YTune music player (`core/playback.py`, class `PlaybackManager`).

The controller state (`current_track`, `current_playlist_ids`,
`playback_queue_ids`, `current_queue_index`, `playback_mode`) is embedded as a
Lean structure; each Python method becomes a pure function from state to
state paired with the list of Qt signals it emits and a flag recording
whether a deferred `play_next` was scheduled through `QTimer.singleShot`.

External collaborators are abstracted as parameters:
 - `playable : Nat → Bool` stands for "the TrackStore resolves the id to a
   track whose `filepath` is set and exists on disk"
   (`database.get_track_by_id(tid)` plus `os.path.exists` in the source);
 - `rand : List Nat → List Nat` stands for the in-place `random.shuffle`
   (an arbitrary reordering supplied by the environment);
 - `player_position : Nat` stands for `self.player.position()` (ms);
 - `is_paused : Bool` stands for `playbackState() == PAUSED`.
-/

namespace YTune

-- Playback modes, `class PlaybackMode` in the source.
namespace PlaybackMode

def NORMAL : Nat := 0

def REPEAT_ONE : Nat := 1

def REPEAT_ALL : Nat := 2

def SHUFFLE : Nat := 3

end PlaybackMode

/-- The Qt signals of `PlaybackManager` that the queue logic emits.
`track_changed` carries the new current track's id (`none` when stopped);
the payloads of the other signals are irrelevant to the claims. -/
inductive Sig where
  | track_changed (t : Option Nat)
  | playback_error
  | queue_changed
  | mode_changed
  deriving DecidableEq, Repr

/-- The queue-related state of `PlaybackManager` (fields set in `__init__`).
`current_track` is the id of the loaded track (`None` in Python becomes
`none`); `current_queue_index` is an `Int` because the source uses `-1` as
the "no track selected" sentinel. -/
structure PMState where
  current_track : Option Nat
  current_playlist_ids : List Nat
  playback_queue_ids : List Nat
  current_queue_index : Int
  playback_mode : Nat
  deriving DecidableEq, Repr

/-- The state after `__init__`: empty lists, index `-1`,
mode `PlaybackMode.REPEAT_ALL` (the source's default). -/
def initial_state : PMState :=
  { current_track := none
    current_playlist_ids := []
    playback_queue_ids := []
    current_queue_index := -1
    playback_mode := PlaybackMode.REPEAT_ALL }

/-- The result of one controller call: the new state, the signals emitted
during the call (in order), and whether a `QTimer.singleShot(_, play_next)`
was scheduled (the deferred implicit advance). -/
abbrev PMResult := PMState × List Sig × Bool

/-- `PlaybackManager.stop`: stops the player, clears `current_track`,
resets `current_queue_index` to `-1` and emits `track_changed(None)`.
The queue itself is not cleared. -/
def stop (s : PMState) : PMResult :=
  ({ s with current_track := none, current_queue_index := -1 },
   [Sig.track_changed none], false)

/-- `PlaybackManager.play_track_at_index`: for an in-range index, sets
`current_queue_index := index` and looks the track up; if playable it
becomes `current_track` and `track_changed` is emitted, otherwise
`playback_error` is emitted and a deferred `play_next` is scheduled.
An out-of-range index logs and calls `stop()`. -/
def play_track_at_index (playable : Nat → Bool) (index : Int) (s : PMState) : PMResult :=
  if 0 ≤ index ∧ index < (s.playback_queue_ids.length : Int) then
    let s1 := { s with current_queue_index := index }
    let track_id := s1.playback_queue_ids.getD index.toNat 0
    if playable track_id then
      ({ s1 with current_track := some track_id },
       [Sig.track_changed (some track_id)], false)
    else
      (s1, [Sig.playback_error], true)
  else
    stop s

/-- `PlaybackManager.set_playlist` (the spec's `loadQueue`): rejects an
empty list with no state change; otherwise replaces `playback_queue_ids`
and `playback_mode`, sets the index from `start_track_id` when that id is
given and present (else `0`), then loads and plays the selected track, or
emits `playback_error` and schedules `play_next` when it is unplayable.
Note that the source never assigns `current_playlist_ids` here. -/
def set_playlist (playable : Nat → Bool) (track_ids : List Nat) (playlist_mode : Nat)
    (start_track_id : Option Nat) (s : PMState) : PMResult :=
  if track_ids = [] then (s, [], false)
  else
    let s1 := { s with playback_queue_ids := track_ids, playback_mode := playlist_mode }
    let idx : Int :=
      match start_track_id with
      | some st => if st ∈ track_ids then (track_ids.indexOf st : Int) else 0
      | none => 0
    let s2 := { s1 with current_queue_index := idx }
    let track_id := s2.playback_queue_ids.getD idx.toNat 0
    if playable track_id then
      ({ s2 with current_track := some track_id },
       [Sig.track_changed (some track_id)], false)
    else
      (s2, [Sig.playback_error], true)

/-- `PlaybackManager.play`: resumes when paused; re-plays the loaded track
when one is selected; otherwise starts at index 0 when the queue is
non-empty; otherwise does nothing. -/
def play (playable : Nat → Bool) (is_paused : Bool) (s : PMState) : PMResult :=
  if is_paused then (s, [], false)
  else if s.current_queue_index ≠ -1 ∧ s.current_track.isSome then
    (s, [Sig.track_changed s.current_track], false)
  else if s.playback_queue_ids ≠ [] then
    play_track_at_index playable 0 s
  else (s, [], false)

/-- `PlaybackManager.play_next`: stops on an empty queue; REPEAT_ONE keeps
the same index, other modes use `index + 1`; past the end, REPEAT_ALL and
SHUFFLE wrap to `0` while NORMAL (and REPEAT_ONE) stop. -/
def play_next (playable : Nat → Bool) (s : PMState) : PMResult :=
  if s.playback_queue_ids = [] then stop s
  else
    let current_index := s.current_queue_index
    let next_index : Int :=
      if s.playback_mode = PlaybackMode.REPEAT_ONE then current_index
      else current_index + 1
    if next_index ≥ (s.playback_queue_ids.length : Int) then
      if s.playback_mode = PlaybackMode.REPEAT_ALL ∨ s.playback_mode = PlaybackMode.SHUFFLE then
        play_track_at_index playable 0 s
      else stop s
    else if next_index ≠ -1 then play_track_at_index playable next_index s
    else stop s

/-- `PlaybackManager.play_previous`: when the player is more than 3000 ms
into the track it only rewinds the player (no queue-state change); else it
stops on an empty queue; REPEAT_ONE keeps the same index, other modes use
`index - 1`; below `0`, REPEAT_ALL and SHUFFLE wrap to the last index while
NORMAL restarts from index `0` (or stops when the queue is empty). -/
def play_previous (playable : Nat → Bool) (player_position : Nat) (s : PMState) : PMResult :=
  if player_position > 3000 then (s, [], false)
  else if s.playback_queue_ids = [] then stop s
  else
    let current_index := s.current_queue_index
    let prev_index : Int :=
      if s.playback_mode = PlaybackMode.REPEAT_ONE then current_index
      else current_index - 1
    if prev_index < 0 then
      if s.playback_mode = PlaybackMode.REPEAT_ALL ∨ s.playback_mode = PlaybackMode.SHUFFLE then
        play_track_at_index playable ((s.playback_queue_ids.length : Int) - 1) s
      else if 0 < s.playback_queue_ids.length then
        play_track_at_index playable 0 s
      else stop s
    else if prev_index ≠ -1 then play_track_at_index playable prev_index s
    else stop s

/-- `PlaybackManager._shuffle_queue`: with more than one element, applies
`random.shuffle` (the `rand` parameter) and then swaps the remembered
current id (when it is truthy and still present) to index 0, setting the
index to 0; the Python truthiness test `if current_id and ...` also fails
for the id `0`. With at most one element only the index is normalised. -/
def shuffle_queue (rand : List Nat → List Nat) (s : PMState) : PMState :=
  if 1 < s.playback_queue_ids.length then
    let current_id : Option Nat :=
      if s.current_queue_index ≠ -1 then
        some (s.playback_queue_ids.getD s.current_queue_index.toNat 0)
      else none
    let q := rand s.playback_queue_ids
    match current_id with
    | some c =>
      if c ≠ 0 ∧ c ∈ q then
        let i := q.indexOf c
        { s with playback_queue_ids := (q.set 0 (q.getD i 0)).set i (q.getD 0 0)
                 current_queue_index := 0 }
      else if q ≠ [] then
        { s with playback_queue_ids := q, current_queue_index := 0 }
      else
        { s with playback_queue_ids := q, current_queue_index := -1 }
    | none =>
      if q ≠ [] then
        { s with playback_queue_ids := q, current_queue_index := 0 }
      else
        { s with playback_queue_ids := q, current_queue_index := -1 }
  else
    { s with current_queue_index := if s.playback_queue_ids ≠ [] then 0 else -1 }

/-- `PlaybackManager.set_playback_mode` (the spec's `setMode`): no-op when
the mode is unchanged; otherwise records the currently selected id,
rebuilds `playback_queue_ids` from `current_playlist_ids` (shuffled when
entering SHUFFLE), re-locates the recorded id in the new queue (falling
back to `0`, or `-1` on an empty queue), and emits `queue_changed` then
`mode_changed`. -/
def set_playback_mode (rand : List Nat → List Nat) (mode : Nat) (s : PMState) :
    PMState × List Sig :=
  if mode = s.playback_mode then (s, [])
  else
    let s1 := { s with playback_mode := mode }
    let current_id_playing : Option Nat :=
      if s1.current_queue_index ≠ -1 then
        some (s1.playback_queue_ids.getD s1.current_queue_index.toNat 0)
      else none
    let s2 :=
      if mode = PlaybackMode.SHUFFLE then
        shuffle_queue rand { s1 with playback_queue_ids := s1.current_playlist_ids }
      else
        { s1 with playback_queue_ids := s1.current_playlist_ids }
    let s3 :=
      match current_id_playing with
      | some c =>
        if c ≠ 0 ∧ c ∈ s2.playback_queue_ids then
          { s2 with current_queue_index := (s2.playback_queue_ids.indexOf c : Int) }
        else if s2.playback_queue_ids ≠ [] then
          { s2 with current_queue_index := 0 }
        else
          { s2 with current_queue_index := -1 }
      | none =>
        if s2.playback_queue_ids ≠ [] then
          { s2 with current_queue_index := 0 }
        else
          { s2 with current_queue_index := -1 }
    (s3, [Sig.queue_changed, Sig.mode_changed])

/-- `PlaybackManager.on_error` (connected to `QMediaPlayer.errorOccurred`):
emits `playback_error` only; the `play_next` skip is commented out in the
source, so no advance is scheduled and the state is untouched. -/
def on_error (s : PMState) : PMResult :=
  (s, [Sig.playback_error], false)

/-- The `QMediaPlayer.MediaStatus` values distinguished by the handler. -/
inductive MediaStatus where
  | endOfMedia
  | invalidMedia
  | loadedMedia
  | otherStatus
  deriving DecidableEq, Repr

/-- `PlaybackManager.on_media_status_changed`: on `EndOfMedia` (unless the
`_playing_next_automatically` guard is set) schedules `play_next`; on
`InvalidMedia` emits `playback_error` and schedules `play_next`; on
`LoadedMedia` only calls `player.play()`. -/
def on_media_status_changed (status : MediaStatus) (playing_next_automatically : Bool)
    (s : PMState) : PMResult :=
  match status with
  | MediaStatus.endOfMedia =>
    if playing_next_automatically then (s, [], false) else (s, [], true)
  | MediaStatus.invalidMedia => (s, [Sig.playback_error], true)
  | MediaStatus.loadedMedia => (s, [], false)
  | MediaStatus.otherStatus => (s, [], false)

/-- Number of `playback_error` signals in an emission list. -/
def err_count (sigs : List Sig) : Nat :=
  (sigs.filter (fun g => g = Sig.playback_error)).length

/-- Runs the chain of deferred `play_next` calls that `QTimer.singleShot`
produces after a failed play: each step runs `play_next` once, accumulating
the number of `playback_error` emissions; the final `Bool` is `true` when
the chain reached a step that scheduled no further `play_next` (i.e. the
sweep terminated) within `fuel` steps. -/
def sweep_aux (playable : Nat → Bool) : Nat → PMState → PMState × Nat × Bool
  | 0, s => (s, 0, false)
  | fuel + 1, s =>
    let r := play_next playable s
    if r.2.2 then
      let t := sweep_aux playable fuel r.1
      (t.1, err_count r.2.1 + t.2.1, t.2.2)
    else (r.1, err_count r.2.1, true)

/-- `play_track_at_index` followed by the deferred-`play_next` chain it may
schedule: the spec's "implicit advance sweep" started from `playAt(index)`. -/
def play_at_then_sweep (playable : Nat → Bool) (fuel : Nat) (index : Int)
    (s : PMState) : PMState × Nat × Bool :=
  let r := play_track_at_index playable index s
  if r.2.2 then
    let t := sweep_aux playable fuel r.1
    (t.1, err_count r.2.1 + t.2.1, t.2.2)
  else (r.1, err_count r.2.1, true)

/-- The spec's Position bounds invariant: the index is the sentinel `-1`
or a valid index into the queue. -/
def posInv (s : PMState) : Prop :=
  s.current_queue_index = -1 ∨
    (0 ≤ s.current_queue_index ∧ s.current_queue_index < (s.playback_queue_ids.length : Int))

instance (s : PMState) : Decidable (posInv s) := by
  unfold posInv; infer_instance

/-!  Theorems settling the claims. -/

/-- `play_track_at_index` with an in-range index sets exactly that index,
playable or not (the source assigns `current_queue_index` before the
playability check). -/
theorem play_track_at_index_index_inrange (playable : Nat → Bool) (index : Int)
    (s : PMState) (h : 0 ≤ index ∧ index < (s.playback_queue_ids.length : Int)) :
    (play_track_at_index playable index s).1.current_queue_index = index := by
  simp only [play_track_at_index, if_pos h]
  split <;> rfl

/-- `play_track_at_index` never changes the queue. -/
theorem play_track_at_index_queue (playable : Nat → Bool) (index : Int) (s : PMState) :
    (play_track_at_index playable index s).1.playback_queue_ids
      = s.playback_queue_ids := by
  simp only [play_track_at_index, stop]
  split
  · split <;> rfl
  · rfl

/-- C4: calling `set_playlist` (the spec's `loadQueue`) with an empty
track list mutates no controller state — Queue, Position and Mode are
exactly unchanged — emits no signal at all (in particular no
`track_changed`), and schedules nothing. -/
theorem C4_empty_load_is_noop (playable : Nat → Bool) (playlist_mode : Nat)
    (start_track_id : Option Nat) (s : PMState) :
    set_playlist playable [] playlist_mode start_track_id s = (s, [], false) := by
  simp [set_playlist]

/-- C8: for every index outside `0 ≤ index < len(Queue)` (including
negative ones), `play_track_at_index` has `stop()` semantics: the current
track is cleared, the index becomes the sentinel `-1`, and
`track_changed none` is emitted. -/
theorem C8_invalid_index_stops (playable : Nat → Bool) (index : Int) (s : PMState)
    (h : ¬ (0 ≤ index ∧ index < (s.playback_queue_ids.length : Int))) :
    play_track_at_index playable index s =
      ({ s with current_track := none, current_queue_index := -1 },
       [Sig.track_changed none], false) := by
  simp only [play_track_at_index, stop, if_neg h]

/-- Witness for C8 at a concrete out-of-range input. -/
theorem C8_invalid_index_stops_witness :
    play_track_at_index (fun _ => true) 5
        { initial_state with playback_queue_ids := [1, 2] } =
      ({ initial_state with
            playback_queue_ids := [1, 2]
            current_track := none
            current_queue_index := -1 },
       [Sig.track_changed none], false) :=
  C8_invalid_index_stops (fun _ => true) 5
    { initial_state with playback_queue_ids := [1, 2] } (by decide)

/-- C1 (code bug): the claimed Shuffle/Sequential round trip is broken
in the source: `set_playlist` never assigns `current_playlist_ids`
(the spec's OriginalOrder), so it stays `[]` forever, and both branches
of `set_playback_mode` rebuild the queue from that empty list — after
loading `[1, 2]` and toggling Shuffle on and off, the queue is `[]`, not
the originally supplied `[1, 2]`, although the mode-change code comments
say it restores the original order. -/
theorem C1_round_trip_loses_queue :
    ((set_playback_mode id PlaybackMode.NORMAL
        (set_playback_mode id PlaybackMode.SHUFFLE
          (set_playlist (fun _ => true) [1, 2] PlaybackMode.NORMAL none
            initial_state).1).1).1).playback_queue_ids = [] ∧
      ([1, 2] : List Nat) ≠ [] := by
  decide

/-- C2 counterexample: `set_playlist` does not set OriginalOrder
(`current_playlist_ids`): after loading `[5, 7]` in Shuffle mode from the
fresh controller, `current_playlist_ids` is still `[]`, not `[5, 7]`. -/
theorem C2_counterexample :
    (set_playlist (fun _ => true) [5, 7] PlaybackMode.SHUFFLE none
        initial_state).1.current_playlist_ids ≠ [5, 7] := by
  decide

/-- C2 amended: for every non-empty `track_ids`, `set_playlist` leaves
`current_playlist_ids` (OriginalOrder) unchanged, sets the queue to
`track_ids` unchanged for every mode — including Shuffle, for which no
shuffle happens at load time — and sets the mode to the given mode. -/
theorem C2_load_queue_amended (playable : Nat → Bool) (track_ids : List Nat)
    (playlist_mode : Nat) (start_track_id : Option Nat) (s : PMState)
    (h : track_ids ≠ []) :
    (set_playlist playable track_ids playlist_mode start_track_id s).1.current_playlist_ids
        = s.current_playlist_ids ∧
    (set_playlist playable track_ids playlist_mode start_track_id s).1.playback_queue_ids
        = track_ids ∧
    (set_playlist playable track_ids playlist_mode start_track_id s).1.playback_mode
        = playlist_mode := by
  simp only [set_playlist, if_neg h]
  split <;> simp

/-- Witness for C2 amended at a concrete input. -/
theorem C2_load_queue_amended_witness :
    (set_playlist (fun _ => true) [5, 7] PlaybackMode.SHUFFLE none
        initial_state).1.current_playlist_ids = initial_state.current_playlist_ids ∧
    (set_playlist (fun _ => true) [5, 7] PlaybackMode.SHUFFLE none
        initial_state).1.playback_queue_ids = [5, 7] ∧
    (set_playlist (fun _ => true) [5, 7] PlaybackMode.SHUFFLE none
        initial_state).1.playback_mode = PlaybackMode.SHUFFLE :=
  C2_load_queue_amended (fun _ => true) [5, 7] PlaybackMode.SHUFFLE none
    initial_state (by decide)

/-- C7 counterexample: a runtime error reported through
`QMediaPlayer.errorOccurred` is NOT handled like an unplayable track: with
a loaded three-track queue, `on_error` emits `playback_error` but leaves
the whole state unchanged and schedules no advance (the skip is commented
out in the source) — the controller halts on the failed track. -/
theorem C7_counterexample :
    (on_error
        { current_track := some 1
          current_playlist_ids := []
          playback_queue_ids := [1, 2, 3]
          current_queue_index := 0
          playback_mode := PlaybackMode.NORMAL }).2.2 = false ∧
    (on_error
        { current_track := some 1
          current_playlist_ids := []
          playback_queue_ids := [1, 2, 3]
          current_queue_index := 0
          playback_mode := PlaybackMode.NORMAL }).1 =
      { current_track := some 1
        current_playlist_ids := []
        playback_queue_ids := [1, 2, 3]
        current_queue_index := 0
        playback_mode := PlaybackMode.NORMAL } := by
  decide

/-- C7 amended: `on_error` (the engine's error callback) only emits
`playback_error`, changing no state and scheduling no advance; the
skip-and-continue behaviour exists only in `on_media_status_changed`,
which on an `InvalidMedia` status emits `playback_error` and schedules a
deferred `play_next`, and on `EndOfMedia` (without the reentrancy guard)
schedules a deferred `play_next` silently. -/
theorem C7_error_handling_amended (s : PMState) (b : Bool) :
    on_error s = (s, [Sig.playback_error], false) ∧
    on_media_status_changed MediaStatus.invalidMedia b s = (s, [Sig.playback_error], true) ∧
    on_media_status_changed MediaStatus.endOfMedia false s = (s, [], true) :=
  ⟨rfl, rfl, rfl⟩

/-- The bounds invariant for an explicitly built state. -/
theorem posInv_mk (ct : Option Nat) (cp q : List Nat) (i : Int) (m : Nat)
    (h : i = -1 ∨ (0 ≤ i ∧ i < (q.length : Int))) :
    posInv { current_track := ct, current_playlist_ids := cp, playback_queue_ids := q,
             current_queue_index := i, playback_mode := m } :=
  h

/-- `stop` establishes the bounds invariant (index becomes `-1`). -/
theorem stop_posInv (s : PMState) : posInv (stop s).1 :=
  Or.inl rfl

/-- `play_track_at_index` establishes the bounds invariant from any state. -/
theorem play_track_at_index_posInv (playable : Nat → Bool) (index : Int) (s : PMState) :
    posInv (play_track_at_index playable index s).1 := by
  simp only [play_track_at_index]
  split_ifs with h1 h2
  · exact Or.inr ⟨h1.1, h1.2⟩
  · exact Or.inr ⟨h1.1, h1.2⟩
  · exact stop_posInv s

/-- `play_next` establishes the bounds invariant from any state. -/
theorem play_next_posInv (playable : Nat → Bool) (s : PMState) :
    posInv (play_next playable s).1 := by
  simp only [play_next]
  split_ifs <;> first | exact stop_posInv s | apply play_track_at_index_posInv

/-- `play_previous` preserves the bounds invariant (the 3-second restart
branch keeps the state, every other branch re-establishes it). -/
theorem play_previous_posInv (playable : Nat → Bool) (player_position : Nat)
    (s : PMState) (h : posInv s) : posInv (play_previous playable player_position s).1 := by
  simp only [play_previous]
  split_ifs <;> first | exact h | exact stop_posInv s | apply play_track_at_index_posInv

/-- `play` preserves the bounds invariant. -/
theorem play_posInv (playable : Nat → Bool) (is_paused : Bool) (s : PMState)
    (h : posInv s) : posInv (play playable is_paused s).1 := by
  simp only [play]
  split_ifs <;> first | exact h | apply play_track_at_index_posInv

/-- `set_playlist` preserves the bounds invariant: a rejected empty list
keeps the state, a non-empty list yields `indexOf` (in range by
membership) or `0` (in range by non-emptiness). -/
theorem set_playlist_posInv (playable : Nat → Bool) (track_ids : List Nat)
    (playlist_mode : Nat) (start_track_id : Option Nat) (s : PMState)
    (h : posInv s) :
    posInv (set_playlist playable track_ids playlist_mode start_track_id s).1 := by
  by_cases h1 : track_ids = []
  · simp only [set_playlist, if_pos h1]
    exact h
  · have hlen : (0 : Int) < (track_ids.length : Int) := by
      exact_mod_cast List.length_pos.mpr h1
    simp only [set_playlist, if_neg h1]
    rcases start_track_id with _ | st
    · split_ifs <;> exact Or.inr ⟨le_refl 0, hlen⟩
    · by_cases h2 : st ∈ track_ids
      · have hio : (track_ids.indexOf st : Int) < (track_ids.length : Int) := by
          exact_mod_cast List.indexOf_lt_length.mpr h2
        simp only [if_pos h2]
        split_ifs <;> exact Or.inr ⟨Int.natCast_nonneg _, hio⟩
      · simp only [if_neg h2]
        split_ifs <;> exact Or.inr ⟨le_refl 0, hlen⟩

/-- `set_playback_mode` preserves the bounds invariant: its final
relocation block always produces `indexOf` of a member, `0` on a
non-empty queue, or `-1`. -/
theorem set_playback_mode_posInv (rand : List Nat → List Nat) (mode : Nat) (s : PMState)
    (h : posInv s) : posInv (set_playback_mode rand mode s).1 := by
  simp only [set_playback_mode]
  by_cases h1 : mode = s.playback_mode
  · rw [if_pos h1]
    exact h
  · rw [if_neg h1]
    split <;>
      split_ifs <;>
        first
        | exact posInv_mk _ _ _ _ _ (Or.inl rfl)
        | (rename_i hmem
           refine posInv_mk _ _ _ _ _ (Or.inr ⟨Int.natCast_nonneg _, ?_⟩)
           exact_mod_cast List.indexOf_lt_length.mpr hmem.2)
        | (rename_i hne
           refine posInv_mk _ _ _ _ _ (Or.inr ⟨le_refl 0, ?_⟩)
           exact_mod_cast List.length_pos.mpr hne)

/-- An in-range `getD` of a list is one of its elements. -/
theorem getD_mem_of_lt (l : List Nat) (n : Nat) (h : n < l.length) :
    l.getD n 0 ∈ l := by
  rw [List.getD_eq_getElem?_getD, List.getElem?_eq_getElem h]
  simp only [Option.getD_some]
  exact List.getElem_mem h

/-- `play_track_at_index` on an in-range but unplayable index: the index
is set, one `playback_error` is emitted, a deferred `play_next` is
scheduled. -/
theorem play_track_at_index_missing (playable : Nat → Bool) (index : Int) (s : PMState)
    (hrange : 0 ≤ index ∧ index < (s.playback_queue_ids.length : Int))
    (hpf : playable (s.playback_queue_ids.getD index.toNat 0) = false) :
    play_track_at_index playable index s =
      ({ s with current_queue_index := index }, [Sig.playback_error], true) := by
  simp only [play_track_at_index, if_pos hrange]
  split_ifs with h
  · rw [hpf] at h
    cases h
  · rfl

/-- `play_next` in NORMAL mode with the current index at the end of the
queue: the controller stops. -/
theorem play_next_normal_end (playable : Nat → Bool) (s : PMState)
    (hm : s.playback_mode = PlaybackMode.NORMAL)
    (hend : s.current_queue_index + 1 ≥ (s.playback_queue_ids.length : Int)) :
    play_next playable s = stop s := by
  have e0 : PlaybackMode.NORMAL = 0 := rfl
  have e1 : PlaybackMode.REPEAT_ONE = 1 := rfl
  simp only [play_next, hm]
  split_ifs <;>
    first
    | rfl
    | omega
    | simp_all [PlaybackMode.NORMAL, PlaybackMode.REPEAT_ONE, PlaybackMode.REPEAT_ALL,
        PlaybackMode.SHUFFLE]

/-- `play_next` in any non-RepeatOne mode, below the end of an
all-unplayable queue: the index advances by one, one `playback_error` is
emitted, a deferred `play_next` is scheduled. -/
theorem play_next_step_missing (playable : Nat → Bool) (s : PMState)
    (hmode : s.playback_mode ≠ PlaybackMode.REPEAT_ONE)
    (hq : s.playback_queue_ids ≠ [])
    (h0 : 0 ≤ s.current_queue_index)
    (hlt : s.current_queue_index + 1 < (s.playback_queue_ids.length : Int))
    (hmiss : ∀ t ∈ s.playback_queue_ids, playable t = false) :
    play_next playable s =
      ({ s with current_queue_index := s.current_queue_index + 1 },
       [Sig.playback_error], true) := by
  have hpti := play_track_at_index_missing playable (s.current_queue_index + 1) s
    ⟨by omega, hlt⟩ (hmiss _ (getD_mem_of_lt _ _ (by omega)))
  simp only [play_next]
  split_ifs <;> first | exact hpti | omega | simp_all

/-- `play_next` in RepeatAll mode at the end of an all-unplayable queue:
the index wraps to 0, one `playback_error` is emitted, a deferred
`play_next` is scheduled. -/
theorem play_next_wrap_missing (playable : Nat → Bool) (s : PMState)
    (hm : s.playback_mode = PlaybackMode.REPEAT_ALL)
    (hq : s.playback_queue_ids ≠ [])
    (hend : s.current_queue_index + 1 ≥ (s.playback_queue_ids.length : Int))
    (hmiss : ∀ t ∈ s.playback_queue_ids, playable t = false) :
    play_next playable s =
      ({ s with current_queue_index := 0 }, [Sig.playback_error], true) := by
  have hn : 0 < s.playback_queue_ids.length := List.length_pos.mpr hq
  have hn' : (0 : Int) < (s.playback_queue_ids.length : Int) := by exact_mod_cast hn
  have e1 : PlaybackMode.REPEAT_ONE = 1 := rfl
  have e2 : PlaybackMode.REPEAT_ALL = 2 := rfl
  have hpti := play_track_at_index_missing playable 0 s ⟨le_refl 0, hn'⟩
    (hmiss _ (getD_mem_of_lt _ _ hn))
  simp only [play_next, hm]
  split_ifs <;>
    first
    | exact hpti
    | omega
    | simp_all [PlaybackMode.NORMAL, PlaybackMode.REPEAT_ONE, PlaybackMode.REPEAT_ALL,
        PlaybackMode.SHUFFLE]

/-- One unfolding step of the deferred-`play_next` chain. -/
theorem sweep_aux_succ (playable : Nat → Bool) (fuel : Nat) (s : PMState) :
    sweep_aux playable (fuel + 1) s =
      (let r := play_next playable s
       if r.2.2 then
         let t := sweep_aux playable fuel r.1
         (t.1, err_count r.2.1 + t.2.1, t.2.2)
       else (r.1, err_count r.2.1, true)) := rfl

/-- In NORMAL mode over an all-unplayable queue, the deferred chain from
index `len - k - 1` terminates in exactly `k + 1` steps with `k` further
`playback_error` emissions and the stopped state. -/
theorem sweep_aux_normal (playable : Nat → Bool) :
    ∀ (k : Nat) (s : PMState),
      s.playback_mode = PlaybackMode.NORMAL →
      (∀ t ∈ s.playback_queue_ids, playable t = false) →
      s.current_queue_index + (k : Int) + 1 = (s.playback_queue_ids.length : Int) →
      0 ≤ s.current_queue_index →
      sweep_aux playable (k + 1) s =
        ({ s with current_track := none, current_queue_index := -1 }, k, true) := by
  intro k
  induction k with
  | zero =>
    intro s hm hmiss hlen h0
    have hq : s.playback_queue_ids ≠ [] := by
      intro h
      rw [h] at hlen
      simp only [List.length_nil, Nat.cast_zero] at hlen
      omega
    have hr := play_next_normal_end playable s hm (by omega)
    rw [sweep_aux_succ]
    simp [hr, stop, err_count]
  | succ k ih =>
    intro s hm hmiss hlen h0
    have hq : s.playback_queue_ids ≠ [] := by
      intro h
      rw [h] at hlen
      simp only [List.length_nil, Nat.cast_zero] at hlen
      omega
    have hmode : s.playback_mode ≠ PlaybackMode.REPEAT_ONE := by
      rw [hm]; decide
    have hr := play_next_step_missing playable s hmode hq h0 (by push_cast at hlen; omega)
      hmiss
    have hlen' : s.current_queue_index + 1 + (k : Int) + 1
        = (s.playback_queue_ids.length : Int) := by
      push_cast at hlen
      omega
    have h0' : (0 : Int) ≤ s.current_queue_index + 1 := by omega
    have ih' := ih { s with current_queue_index := s.current_queue_index + 1 }
      hm hmiss hlen' h0'
    rw [sweep_aux_succ]
    simp only [hr]
    simp [ih', err_count]
    omega

/-- In RepeatAll mode over a non-empty all-unplayable queue, the deferred
`play_next` chain never terminates: however much fuel is given, a further
`play_next` is always pending. -/
theorem sweep_aux_repeat_all_stuck (playable : Nat → Bool) :
    ∀ (fuel : Nat) (s : PMState),
      s.playback_mode = PlaybackMode.REPEAT_ALL →
      s.playback_queue_ids ≠ [] →
      (∀ t ∈ s.playback_queue_ids, playable t = false) →
      0 ≤ s.current_queue_index →
      (sweep_aux playable fuel s).2.2 = false := by
  intro fuel
  induction fuel with
  | zero => intro s _ _ _ _; rfl
  | succ fuel ih =>
    intro s hm hq hmiss h0
    have hmode : s.playback_mode ≠ PlaybackMode.REPEAT_ONE := by
      rw [hm]; decide
    by_cases hend : s.current_queue_index + 1 ≥ (s.playback_queue_ids.length : Int)
    · have hr := play_next_wrap_missing playable s hm hq hend hmiss
      rw [sweep_aux_succ]
      simp only [hr]
      simp only [eq_self_iff_true, if_true]
      exact ih { s with current_queue_index := 0 } hm hq hmiss (le_refl 0)
    · have hr := play_next_step_missing playable s hmode hq h0 (by omega) hmiss
      have h0' : (0 : Int) ≤ s.current_queue_index + 1 := by omega
      rw [sweep_aux_succ]
      simp only [hr]
      simp only [eq_self_iff_true, if_true]
      exact ih { s with current_queue_index := s.current_queue_index + 1 } hm hq hmiss h0'

/-- Emission lists containing only `track_changed`, `playback_error` or
nothing never contain `queue_changed` or `mode_changed`. -/
theorem sig_not_qc_mc (g : Sig) (hg : g = Sig.queue_changed ∨ g = Sig.mode_changed)
    (sigs : List Sig)
    (hs : sigs = [] ∨ (∃ t, sigs = [Sig.track_changed t]) ∨ sigs = [Sig.playback_error]) :
    g ∉ sigs := by
  rcases hg with rfl | rfl <;> rcases hs with rfl | ⟨t, rfl⟩ | rfl <;> simp

/-- `stop` emits exactly `track_changed none`. -/
theorem stop_sigs (s : PMState) :
    (stop s).2.1 = [] ∨ (∃ t, (stop s).2.1 = [Sig.track_changed t]) ∨
      (stop s).2.1 = [Sig.playback_error] :=
  Or.inr (Or.inl ⟨none, rfl⟩)

/-- `play_track_at_index` emits one `track_changed`, one `playback_error`
or (never) nothing. -/
theorem play_track_at_index_sigs (playable : Nat → Bool) (index : Int) (s : PMState) :
    (play_track_at_index playable index s).2.1 = [] ∨
    (∃ t, (play_track_at_index playable index s).2.1 = [Sig.track_changed t]) ∨
    (play_track_at_index playable index s).2.1 = [Sig.playback_error] := by
  simp only [play_track_at_index]
  split_ifs
  · exact Or.inr (Or.inl ⟨_, rfl⟩)
  · exact Or.inr (Or.inr rfl)
  · exact stop_sigs s

/-- `set_playlist` emits one `track_changed`, one `playback_error` or
nothing (empty-list rejection). -/
theorem set_playlist_sigs (playable : Nat → Bool) (track_ids : List Nat)
    (playlist_mode : Nat) (start_track_id : Option Nat) (s : PMState) :
    (set_playlist playable track_ids playlist_mode start_track_id s).2.1 = [] ∨
    (∃ t, (set_playlist playable track_ids playlist_mode start_track_id s).2.1
        = [Sig.track_changed t]) ∨
    (set_playlist playable track_ids playlist_mode start_track_id s).2.1
        = [Sig.playback_error] := by
  by_cases h : track_ids = []
  · simp only [set_playlist, if_pos h]
    exact Or.inl (by trivial)
  · simp only [set_playlist, if_neg h]
    rcases start_track_id with _ | st <;>
      split_ifs <;>
        first
        | exact Or.inr (Or.inl ⟨_, rfl⟩)
        | exact Or.inr (Or.inr rfl)

/-- `play` emits one `track_changed`, one `playback_error` or nothing. -/
theorem play_sigs (playable : Nat → Bool) (is_paused : Bool) (s : PMState) :
    (play playable is_paused s).2.1 = [] ∨
    (∃ t, (play playable is_paused s).2.1 = [Sig.track_changed t]) ∨
    (play playable is_paused s).2.1 = [Sig.playback_error] := by
  simp only [play]
  split_ifs
  · exact Or.inl rfl
  · exact Or.inr (Or.inl ⟨_, rfl⟩)
  · exact play_track_at_index_sigs playable 0 s
  · exact Or.inl rfl

/-- `play_next` emits one `track_changed`, one `playback_error` or nothing. -/
theorem play_next_sigs (playable : Nat → Bool) (s : PMState) :
    (play_next playable s).2.1 = [] ∨
    (∃ t, (play_next playable s).2.1 = [Sig.track_changed t]) ∨
    (play_next playable s).2.1 = [Sig.playback_error] := by
  simp only [play_next]
  split_ifs <;> first | exact stop_sigs s | apply play_track_at_index_sigs

/-- `play_previous` emits one `track_changed`, one `playback_error` or
nothing. -/
theorem play_previous_sigs (playable : Nat → Bool) (player_position : Nat) (s : PMState) :
    (play_previous playable player_position s).2.1 = [] ∨
    (∃ t, (play_previous playable player_position s).2.1 = [Sig.track_changed t]) ∨
    (play_previous playable player_position s).2.1 = [Sig.playback_error] := by
  simp only [play_previous]
  split_ifs <;>
    first
    | exact Or.inl rfl
    | exact stop_sigs s
    | apply play_track_at_index_sigs

/-- `on_media_status_changed` emits one `playback_error` or nothing. -/
theorem on_media_status_changed_sigs (status : MediaStatus) (b : Bool) (s : PMState) :
    (on_media_status_changed status b s).2.1 = [] ∨
    (∃ t, (on_media_status_changed status b s).2.1 = [Sig.track_changed t]) ∨
    (on_media_status_changed status b s).2.1 = [Sig.playback_error] := by
  cases status <;> cases b <;> simp [on_media_status_changed]

/-- C5 counterexample: in RepeatAll mode, `play_previous` from index 0
does NOT wrap to the last index when the player is more than 3000 ms into
the current track — the 3-second restart rule fires first and the index
stays 0 (the last index of `[1, 2, 3]` being 2). -/
theorem C5_counterexample :
    (play_previous (fun _ => true) 3001
        { initial_state with
            playback_queue_ids := [1, 2, 3]
            current_queue_index := 0
            playback_mode := PlaybackMode.REPEAT_ALL }).1.current_queue_index = 0 ∧
      (0 : Int) ≠ 2 := by
  decide

/-- C5 amended: with a non-empty queue in RepeatAll mode, `play_next`
from the last index always wraps to index 0, and `play_previous` from
index 0 wraps to the last index provided the player is at most 3000 ms
into the current track (otherwise the track is restarted and the index
stays 0). -/
theorem C5_repeat_all_wrap (playable : Nat → Bool) (player_position : Nat) (s : PMState)
    (hq : s.playback_queue_ids ≠ [])
    (hm : s.playback_mode = PlaybackMode.REPEAT_ALL) :
    (s.current_queue_index = (s.playback_queue_ids.length : Int) - 1 →
        (play_next playable s).1.current_queue_index = 0) ∧
    (player_position ≤ 3000 → s.current_queue_index = 0 →
        (play_previous playable player_position s).1.current_queue_index
          = (s.playback_queue_ids.length : Int) - 1) := by
  have hn : 0 < s.playback_queue_ids.length := List.length_pos.mpr hq
  have hn' : (0 : Int) < (s.playback_queue_ids.length : Int) := by exact_mod_cast hn
  have e1 : PlaybackMode.REPEAT_ONE = 1 := rfl
  have e2 : PlaybackMode.REPEAT_ALL = 2 := rfl
  have e3 : PlaybackMode.SHUFFLE = 3 := rfl
  constructor
  · intro hidx
    have hplay := play_track_at_index_index_inrange playable 0 s ⟨le_refl 0, hn'⟩
    simp only [play_next, hm]
    split_ifs <;> first | exact hplay | omega | simp_all
  · intro hp hidx
    have hplay := play_track_at_index_index_inrange playable
      ((s.playback_queue_ids.length : Int) - 1) s ⟨by omega, by omega⟩
    simp only [play_previous, hm]
    split_ifs <;> first | exact hplay | omega | simp_all

/-- Witness for C5 amended at a concrete input: queue `[1, 2, 3]` in
RepeatAll mode with player position 0 ms. -/
theorem C5_repeat_all_wrap_witness :
    ((({ initial_state with
          playback_queue_ids := [1, 2, 3]
          current_queue_index := 2
          playback_mode := PlaybackMode.REPEAT_ALL } : PMState).current_queue_index
        = ((3 : Nat) : Int) - 1 →
      (play_next (fun _ => true)
        { initial_state with
            playback_queue_ids := [1, 2, 3]
            current_queue_index := 2
            playback_mode := PlaybackMode.REPEAT_ALL }).1.current_queue_index = 0) ∧
     ((0 : Nat) ≤ 3000 →
      ({ initial_state with
          playback_queue_ids := [1, 2, 3]
          current_queue_index := 2
          playback_mode := PlaybackMode.REPEAT_ALL } : PMState).current_queue_index = 0 →
      (play_previous (fun _ => true) 0
        { initial_state with
            playback_queue_ids := [1, 2, 3]
            current_queue_index := 2
            playback_mode := PlaybackMode.REPEAT_ALL }).1.current_queue_index
        = ((3 : Nat) : Int) - 1)) :=
  C5_repeat_all_wrap (fun _ => true) 0
    { initial_state with
        playback_queue_ids := [1, 2, 3]
        current_queue_index := 2
        playback_mode := PlaybackMode.REPEAT_ALL }
    (by decide) (by decide)

/-- C6 counterexample: with Mode = RepeatOne, a non-empty queue and the
sentinel Position `-1` (reachable by `stop()` after loading), a
`play_previous` call moves Position to 0 instead of leaving it
unchanged. -/
theorem C6_counterexample :
    (play_previous (fun _ => true) 0
        { initial_state with
            playback_queue_ids := [1, 2]
            current_queue_index := -1
            playback_mode := PlaybackMode.REPEAT_ONE }).1.current_queue_index = 0 ∧
      (0 : Int) ≠ -1 := by
  decide

/-- C6 amended: with Mode = RepeatOne and a valid (non-sentinel) Position
`0 ≤ Position < len(Queue)`, `play_next` and `play_previous` leave
Position unchanged — the current track is replayed. -/
theorem C6_repeat_one_keeps_position (playable : Nat → Bool) (player_position : Nat)
    (s : PMState) (hm : s.playback_mode = PlaybackMode.REPEAT_ONE)
    (h0 : 0 ≤ s.current_queue_index)
    (hlt : s.current_queue_index < (s.playback_queue_ids.length : Int)) :
    (play_next playable s).1.current_queue_index = s.current_queue_index ∧
    (play_previous playable player_position s).1.current_queue_index
      = s.current_queue_index := by
  have hq : s.playback_queue_ids ≠ [] := by
    intro h
    rw [h] at hlt
    simp only [List.length_nil, Nat.cast_zero] at hlt
    omega
  have e1 : PlaybackMode.REPEAT_ONE = 1 := rfl
  have e2 : PlaybackMode.REPEAT_ALL = 2 := rfl
  have e3 : PlaybackMode.SHUFFLE = 3 := rfl
  have hplay := play_track_at_index_index_inrange playable s.current_queue_index s ⟨h0, hlt⟩
  constructor
  · simp only [play_next, hm]
    split_ifs <;> first | exact hplay | rfl | omega | simp_all
  · simp only [play_previous, hm]
    split_ifs <;> first | exact hplay | rfl | omega

/-- Witness for C6 amended at a concrete input: queue `[1, 2]`,
Position 1, RepeatOne. -/
theorem C6_repeat_one_keeps_position_witness :
    (play_next (fun _ => true)
        { initial_state with
            playback_queue_ids := [1, 2]
            current_queue_index := 1
            playback_mode := PlaybackMode.REPEAT_ONE }).1.current_queue_index
      = ({ initial_state with
            playback_queue_ids := [1, 2]
            current_queue_index := 1
            playback_mode := PlaybackMode.REPEAT_ONE } : PMState).current_queue_index ∧
    (play_previous (fun _ => true) 0
        { initial_state with
            playback_queue_ids := [1, 2]
            current_queue_index := 1
            playback_mode := PlaybackMode.REPEAT_ONE }).1.current_queue_index
      = ({ initial_state with
            playback_queue_ids := [1, 2]
            current_queue_index := 1
            playback_mode := PlaybackMode.REPEAT_ONE } : PMState).current_queue_index :=
  C6_repeat_one_keeps_position (fun _ => true) 0
    { initial_state with
        playback_queue_ids := [1, 2]
        current_queue_index := 1
        playback_mode := PlaybackMode.REPEAT_ONE }
    (by decide) (by decide) (by decide)

/-- C3 counterexample: with the three-track all-missing queue in
Sequential (NORMAL) mode — the only mode in which the sweep reaches the
stopped state at all — `playAt(0)` plus the deferred `play_next` chain
emits three `playback_error` notifications (one per attempted track),
not exactly one. -/
theorem C3_counterexample :
    (play_at_then_sweep (fun _ => false) 3 0
        { current_track := none
          current_playlist_ids := []
          playback_queue_ids := [1, 2, 3]
          current_queue_index := -1
          playback_mode := PlaybackMode.NORMAL }).2.1 = 3 ∧
    ¬ ((play_at_then_sweep (fun _ => false) 3 0
        { current_track := none
          current_playlist_ids := []
          playback_queue_ids := [1, 2, 3]
          current_queue_index := -1
          playback_mode := PlaybackMode.NORMAL }).2.2 = true ∧
      (play_at_then_sweep (fun _ => false) 3 0
        { current_track := none
          current_playlist_ids := []
          playback_queue_ids := [1, 2, 3]
          current_queue_index := -1
          playback_mode := PlaybackMode.NORMAL }).2.1 = 1) := by
  decide

/-- C3 amended: the advance never retries the failed track, and in
Sequential (NORMAL) mode the sweep started by `playAt(0)` over an
all-unplayable queue attempts each index once and terminates in the
stopped state, but it emits one `playback_error` per track (`len(Queue)`
in total, not exactly one); in the default RepeatAll mode the sweep wraps
around and never terminates by itself, whatever the number of steps. -/
theorem C3_implicit_advance_amended (playable : Nat → Bool) (s : PMState)
    (hm : s.playback_mode = PlaybackMode.NORMAL)
    (hq : s.playback_queue_ids ≠ [])
    (hmiss : ∀ t ∈ s.playback_queue_ids, playable t = false) :
    play_at_then_sweep playable s.playback_queue_ids.length 0 s =
      ({ s with current_track := none, current_queue_index := -1 },
       s.playback_queue_ids.length, true) ∧
    ∀ fuel : Nat,
      (play_at_then_sweep (fun _ => false) fuel 0
        { current_track := none
          current_playlist_ids := []
          playback_queue_ids := [1, 2, 3]
          current_queue_index := -1
          playback_mode := PlaybackMode.REPEAT_ALL }).2.2 = false := by
  constructor
  · have hn : 0 < s.playback_queue_ids.length := List.length_pos.mpr hq
    have hn' : (0 : Int) < (s.playback_queue_ids.length : Int) := by exact_mod_cast hn
    have hr := play_track_at_index_missing playable 0 s ⟨le_refl 0, hn'⟩
      (hmiss _ (getD_mem_of_lt _ _ (by omega)))
    obtain ⟨k, hk⟩ : ∃ k, s.playback_queue_ids.length = k + 1 :=
      ⟨s.playback_queue_ids.length - 1, by omega⟩
    have hlen' : (0 : Int) + (k : Int) + 1 = (s.playback_queue_ids.length : Int) := by
      rw [hk]
      push_cast
      ring
    have hsw := sweep_aux_normal playable k { s with current_queue_index := 0 }
      hm hmiss hlen' (le_refl 0)
    simp only [play_at_then_sweep, hr]
    simp only [eq_self_iff_true, if_true]
    rw [hk, hsw]
    simp [err_count, Nat.add_comm]
  · intro fuel
    have hr := play_track_at_index_missing (fun _ => false) 0
      { current_track := none
        current_playlist_ids := []
        playback_queue_ids := [1, 2, 3]
        current_queue_index := -1
        playback_mode := PlaybackMode.REPEAT_ALL }
      ⟨le_refl 0, by decide⟩ rfl
    simp only [play_at_then_sweep, hr]
    simp only [eq_self_iff_true, if_true]
    exact sweep_aux_repeat_all_stuck (fun _ => false) fuel _ rfl (by decide)
      (fun _ _ => rfl) (by decide)

/-- Witness for C3 amended at a concrete input: the single-track
all-missing queue `[7]` in NORMAL mode. -/
theorem C3_implicit_advance_amended_witness :
    play_at_then_sweep (fun _ => false)
        ({ current_track := none
           current_playlist_ids := []
           playback_queue_ids := [7]
           current_queue_index := -1
           playback_mode := PlaybackMode.NORMAL } : PMState).playback_queue_ids.length 0
        { current_track := none
          current_playlist_ids := []
          playback_queue_ids := [7]
          current_queue_index := -1
          playback_mode := PlaybackMode.NORMAL } =
      ({ ({ current_track := none
            current_playlist_ids := []
            playback_queue_ids := [7]
            current_queue_index := -1
            playback_mode := PlaybackMode.NORMAL } : PMState) with
          current_track := none
          current_queue_index := -1 },
       ({ current_track := none
          current_playlist_ids := []
          playback_queue_ids := [7]
          current_queue_index := -1
          playback_mode := PlaybackMode.NORMAL } : PMState).playback_queue_ids.length,
       true) ∧
    ∀ fuel : Nat,
      (play_at_then_sweep (fun _ => false) fuel 0
        { current_track := none
          current_playlist_ids := []
          playback_queue_ids := [1, 2, 3]
          current_queue_index := -1
          playback_mode := PlaybackMode.REPEAT_ALL }).2.2 = false :=
  C3_implicit_advance_amended (fun _ => false)
    { current_track := none
      current_playlist_ids := []
      playback_queue_ids := [7]
      current_queue_index := -1
      playback_mode := PlaybackMode.NORMAL }
    rfl (by decide) (fun _ _ => rfl)

/-- C9: every modeled controller operation (`set_playlist`,
`play_track_at_index`, `play`, `stop`, `play_next`, `play_previous`,
`set_playback_mode`) preserves the Position bounds invariant: afterwards
the index is the sentinel `-1` or satisfies `0 ≤ index < len(Queue)`. -/
theorem C9_position_invariant (playable : Nat → Bool) (rand : List Nat → List Nat)
    (track_ids : List Nat) (playlist_mode mode : Nat) (start_track_id : Option Nat)
    (index : Int) (player_position : Nat) (is_paused : Bool) (s : PMState)
    (h : posInv s) :
    posInv (set_playlist playable track_ids playlist_mode start_track_id s).1 ∧
    posInv (play_track_at_index playable index s).1 ∧
    posInv (play playable is_paused s).1 ∧
    posInv (stop s).1 ∧
    posInv (play_next playable s).1 ∧
    posInv (play_previous playable player_position s).1 ∧
    posInv (set_playback_mode rand mode s).1 :=
  ⟨set_playlist_posInv playable track_ids playlist_mode start_track_id s h,
   play_track_at_index_posInv playable index s,
   play_posInv playable is_paused s h,
   stop_posInv s,
   play_next_posInv playable s,
   play_previous_posInv playable player_position s h,
   set_playback_mode_posInv rand mode s h⟩

/-- Witness for C9 at a concrete input: the fresh controller state and a
two-element load. -/
theorem C9_position_invariant_witness :
    posInv (set_playlist (fun _ => true) [1, 2] PlaybackMode.NORMAL (some 2)
        initial_state).1 ∧
    posInv (play_track_at_index (fun _ => true) 1 initial_state).1 ∧
    posInv (play (fun _ => true) false initial_state).1 ∧
    posInv (stop initial_state).1 ∧
    posInv (play_next (fun _ => true) initial_state).1 ∧
    posInv (play_previous (fun _ => true) 0 initial_state).1 ∧
    posInv (set_playback_mode id PlaybackMode.SHUFFLE initial_state).1 :=
  C9_position_invariant (fun _ => true) id [1, 2] PlaybackMode.NORMAL
    PlaybackMode.SHUFFLE (some 2) 1 0 false initial_state (by decide)

/-- C10: `set_playlist` with a non-empty list replaces both Queue and
Mode yet emits neither `queue_changed` nor `mode_changed` — its only
emission is one `track_changed` on success or one `playback_error` on
failure — and no other modeled operation besides `set_playback_mode`
ever emits `queue_changed` or `mode_changed`. -/
theorem C10_signal_discipline (playable : Nat → Bool) (track_ids : List Nat)
    (playlist_mode : Nat) (start_track_id : Option Nat) (index : Int)
    (player_position : Nat) (is_paused : Bool) (status : MediaStatus) (b : Bool)
    (s : PMState) (g : Sig) (hg : g = Sig.queue_changed ∨ g = Sig.mode_changed) :
    (track_ids ≠ [] →
      (set_playlist playable track_ids playlist_mode start_track_id s).1.playback_queue_ids
          = track_ids ∧
      (set_playlist playable track_ids playlist_mode start_track_id s).1.playback_mode
          = playlist_mode ∧
      ((∃ t, (set_playlist playable track_ids playlist_mode start_track_id s).2.1
            = [Sig.track_changed (some t)]) ∨
        (set_playlist playable track_ids playlist_mode start_track_id s).2.1
            = [Sig.playback_error])) ∧
    g ∉ (set_playlist playable track_ids playlist_mode start_track_id s).2.1 ∧
    g ∉ (play_track_at_index playable index s).2.1 ∧
    g ∉ (play playable is_paused s).2.1 ∧
    g ∉ (stop s).2.1 ∧
    g ∉ (play_next playable s).2.1 ∧
    g ∉ (play_previous playable player_position s).2.1 ∧
    g ∉ (on_error s).2.1 ∧
    g ∉ (on_media_status_changed status b s).2.1 := by
  refine ⟨?_, ?_, ?_, ?_, ?_, ?_, ?_, ?_, ?_⟩
  · intro hne
    simp only [set_playlist, if_neg hne]
    rcases start_track_id with _ | st <;>
      split_ifs <;>
        first
        | exact ⟨rfl, rfl, Or.inl ⟨_, rfl⟩⟩
        | exact ⟨rfl, rfl, Or.inr rfl⟩
  · exact sig_not_qc_mc g hg _
      (set_playlist_sigs playable track_ids playlist_mode start_track_id s)
  · exact sig_not_qc_mc g hg _ (play_track_at_index_sigs playable index s)
  · exact sig_not_qc_mc g hg _ (play_sigs playable is_paused s)
  · exact sig_not_qc_mc g hg _ (stop_sigs s)
  · exact sig_not_qc_mc g hg _ (play_next_sigs playable s)
  · exact sig_not_qc_mc g hg _ (play_previous_sigs playable player_position s)
  · exact sig_not_qc_mc g hg _ (Or.inr (Or.inr rfl))
  · exact sig_not_qc_mc g hg _ (on_media_status_changed_sigs status b s)

/-- Witness for C10 at a concrete input: loading `[4, 6]` on the fresh
controller, checking no `queue_changed` is ever emitted. -/
theorem C10_signal_discipline_witness :
    (([4, 6] : List Nat) ≠ [] →
      (set_playlist (fun _ => true) [4, 6] PlaybackMode.NORMAL none
          initial_state).1.playback_queue_ids = [4, 6] ∧
      (set_playlist (fun _ => true) [4, 6] PlaybackMode.NORMAL none
          initial_state).1.playback_mode = PlaybackMode.NORMAL ∧
      ((∃ t, (set_playlist (fun _ => true) [4, 6] PlaybackMode.NORMAL none
            initial_state).2.1 = [Sig.track_changed (some t)]) ∨
        (set_playlist (fun _ => true) [4, 6] PlaybackMode.NORMAL none
            initial_state).2.1 = [Sig.playback_error])) ∧
    Sig.queue_changed ∉ (set_playlist (fun _ => true) [4, 6] PlaybackMode.NORMAL none
        initial_state).2.1 ∧
    Sig.queue_changed ∉ (play_track_at_index (fun _ => true) 0 initial_state).2.1 ∧
    Sig.queue_changed ∉ (play (fun _ => true) false initial_state).2.1 ∧
    Sig.queue_changed ∉ (stop initial_state).2.1 ∧
    Sig.queue_changed ∉ (play_next (fun _ => true) initial_state).2.1 ∧
    Sig.queue_changed ∉ (play_previous (fun _ => true) 0 initial_state).2.1 ∧
    Sig.queue_changed ∉ (on_error initial_state).2.1 ∧
    Sig.queue_changed ∉ (on_media_status_changed MediaStatus.endOfMedia false
        initial_state).2.1 :=
  C10_signal_discipline (fun _ => true) [4, 6] PlaybackMode.NORMAL none 0 0 false
    MediaStatus.endOfMedia false initial_state Sig.queue_changed (Or.inl rfl)

end YTune
